import Mathlib

/-!
Verification of the RathamCloud VPS management bot (src/main.py).

The development embeds the governance core of the bot — persistence,
admin registry, port allocator, instance guardian, host-monitor loop and
the create/delete lifecycle operations — as executable Lean definitions,
and proves or refutes the specification's claims about them.

External effects are abstracted as explicit inputs:
 - file reads become an `Option` argument (`none` = missing or corrupt file);
 - the RTC command executor becomes an oracle `String → Bool` giving the
   success/failure of each issued command line;
 - wall-clock timestamps and sampled CPU/RAM percentages are parameters.
-/

/-! ## Configuration constants (src/main.py lines 17-23, defaults) -/

def MAIN_ADMIN_ID : Nat := 1210291131301101618

def main_admin_str : String := toString MAIN_ADMIN_ID

def DEFAULT_STORAGE_POOL : String := "default"

def CPU_THRESHOLD : Int := 90

def RAM_THRESHOLD : Int := 90

/-! ## Data model (persisted JSON documents) -/

/-- One suspension-history entry (the dict appended at src/main.py:447-451).
The Python dict key `by` is a Lean keyword, hence the field name `by_`. -/
structure HistEntry where
  time : String
  reason : String
  by_ : String
deriving Repr, DecidableEq, Inhabited

/-- One VPS record (the dict built at src/main.py:742-753). -/
structure VpsInfo where
  container_name : String
  ram : String
  cpu : String
  storage : String
  config : String
  status : String
  suspended : Bool
  suspension_history : List HistEntry
  created_at : String
  shared_with : List String
deriving Repr, DecidableEq, Inhabited

/-- `vps_data`: owner id ↦ ordered list of VPS records. -/
abbrev VpsData : Type := List (String × List VpsInfo)

/-- `admin_data`: the mutable list of delegated admin ids. -/
structure AdminData where
  admins : List String
deriving Repr, DecidableEq, Inhabited

/-- One active port forward (the dict appended at src/main.py:2221-2225). -/
structure PortInfo where
  container : String
  internal_port : Nat
  host_port : Nat
deriving Repr, DecidableEq, Inhabited

/-- `port_data`: per-user slot quota plus per-user active forwards. -/
structure PortData where
  users : List (String × Int)
  active_ports : List (String × List PortInfo)
deriving Repr, DecidableEq, Inhabited

/-- Python `dict.get(k, dflt)` on an association list. -/
def dict_get {α : Type} : List (String × α) → String → α → α
  | [], _, dflt => dflt
  | (k, v) :: rest, u, dflt => if k = u then v else dict_get rest u dflt

/-! ## Persistence (src/main.py lines 106-156)

Each `load_*` catches `FileNotFoundError` and `JSONDecodeError` and returns a
default; the file read + JSON parse is abstracted as the `Option` argument
(`none` = the file is missing or holds invalid JSON). -/

/-- `load_vps_data` (src/main.py:106-112): default is the empty dict. -/
def load_vps_data : Option VpsData → VpsData
  | some d => d
  | none => []

/-- `load_admin_data` (src/main.py:114-120): the default seeds the mutable
`admins` list with the main admin id. -/
def load_admin_data : Option AdminData → AdminData
  | some d => d
  | none => { admins := [main_admin_str] }

/-- `load_port_data` (src/main.py:122-128): default is two empty dicts. -/
def load_port_data : Option PortData → PortData
  | some d => d
  | none => { users := [], active_ports := [] }

/-- Result of one `save_data()` call. `written` records whether the bytes
reached disk; `raised` records whether an exception escaped to the caller. -/
structure SaveOutcome where
  written : Bool
  raised : Bool
deriving Repr, DecidableEq

/-- `save_data` (src/main.py:136-156): the whole body is wrapped in
`try/except Exception` whose handler only logs, so no error ever propagates
to the caller — `raised` is `false` on both branches. -/
def save_data (diskOk : Bool) : SaveOutcome :=
  { written := diskOk, raised := false }

/-! ## Admin registry operations (src/main.py lines 1388-1431) -/

inductive AdminMsg
  | alreadyMainAdmin
  | alreadyAdmin
  | added
  | cannotRemoveMain
  | notAdmin
  | removed
deriving Repr, DecidableEq

/-- `admin_add` (src/main.py:1388-1410), the registry mutation only. -/
def admin_add (ad : AdminData) (uid : String) : AdminData × AdminMsg :=
  if uid = main_admin_str then (ad, .alreadyMainAdmin)
  else if uid ∈ ad.admins then (ad, .alreadyAdmin)
  else ({ admins := ad.admins ++ [uid] }, .added)

/-- `admin_remove` (src/main.py:1412-1431), the registry mutation only. -/
def admin_remove (ad : AdminData) (uid : String) : AdminData × AdminMsg :=
  if uid = main_admin_str then (ad, .cannotRemoveMain)
  else if uid ∉ ad.admins then (ad, .notAdmin)
  else ({ admins := ad.admins.erase uid }, .removed)

/-- One full run of the `!admin-add` command body: the in-memory mutation,
the `save_data()` call on the mutation path, and whether the command then
sends its success embed to the caller. -/
structure AdminAddRun where
  registry : AdminData
  msg : AdminMsg
  save : Option SaveOutcome
  reportsSuccess : Bool
deriving Repr, DecidableEq

/-- `!admin-add` end to end (src/main.py:1388-1410): after the in-memory
append it calls `save_data()` and then — unconditionally, because `save_data`
never raises — sends the success embed. -/
def admin_add_op (diskOk : Bool) (ad : AdminData) (uid : String) : AdminAddRun :=
  let r := admin_add ad uid
  if r.2 = AdminMsg.added then
    { registry := r.1, msg := r.2, save := some (save_data diskOk),
      reportsSuccess := true }
  else
    { registry := r.1, msg := r.2, save := none, reportsSuccess := false }

/-- A sequence of delegated-admin mutations. -/
inductive AdminOp
  | add (uid : String)
  | remove (uid : String)

def apply_admin (ad : AdminData) : AdminOp → AdminData
  | .add u => (admin_add ad u).1
  | .remove u => (admin_remove ad u).1

theorem main_mem_apply_admin (ad : AdminData) (op : AdminOp) :
    main_admin_str ∈ (apply_admin ad op).admins ↔ main_admin_str ∈ ad.admins := by
  cases op with
  | add u =>
      by_cases h1 : u = main_admin_str
      · simp [apply_admin, admin_add, h1]
      · by_cases h2 : u ∈ ad.admins
        · simp [apply_admin, admin_add, h1, h2]
        · simp [apply_admin, admin_add, h1, h2]
          intro h
          exact absurd h.symm h1
  | remove u =>
      by_cases h1 : u = main_admin_str
      · simp [apply_admin, admin_remove, h1]
      · by_cases h2 : u ∈ ad.admins
        · simp [apply_admin, admin_remove, h1, h2]
          exact List.mem_erase_of_ne (fun h => h1 h.symm)
        · simp [apply_admin, admin_remove, h1, h2]

theorem main_mem_foldl_admin (ops : List AdminOp) (ad : AdminData) :
    main_admin_str ∈ (ops.foldl apply_admin ad).admins ↔ main_admin_str ∈ ad.admins := by
  induction ops generalizing ad with
  | nil => simp
  | cons op rest ih =>
      simpa [List.foldl_cons, ih] using main_mem_apply_admin ad op

/-! ## Claims C1, C8, C10 -/

/-- Claim C10: loading persisted state never fails — for each of the three
collections a missing or corrupt file yields a default value (empty instance
records, an admin registry holding only the main admin, an empty port table)
instead of an error, and a readable file is returned as parsed. -/
theorem load_defaults_on_missing_or_corrupt :
    load_vps_data none = ([] : VpsData) ∧
    load_admin_data none = { admins := [main_admin_str] } ∧
    load_port_data none = { users := [], active_ports := [] } ∧
    (∀ d : VpsData, load_vps_data (some d) = d) ∧
    (∀ d : AdminData, load_admin_data (some d) = d) ∧
    (∀ d : PortData, load_port_data (some d) = d) :=
  ⟨rfl, rfl, rfl, fun _ => rfl, fun _ => rfl, fun _ => rfl⟩

/-- Claim C1, counterexample: a failed save is not surfaced. `save_data`
never raises, and the `!admin-add` mutation still reports success to its
caller when the disk write failed, so no `PersistenceError` reaches the
triggering operation. -/
theorem save_failure_silently_swallowed :
    (save_data false).raised = false ∧
    (admin_add_op false { admins := [] } "42").reportsSuccess = true ∧
    (admin_add_op false { admins := [] } "42").save =
      some { written := false, raised := false } ∧
    (admin_add_op false { admins := [] } "42").registry = { admins := ["42"] } := by
  decide

/-- Claim C1, amended: the persistence save step never signals failure —
`save_data` catches every exception internally and only logs it, so a
mutating operation's outcome, reported success, and retained in-memory
mutation are identical whether or not the save reached disk (memory is not
rolled back and can silently desynchronize from disk). -/
theorem save_failure_not_fatal_to_operation :
    (∀ ok : Bool, (save_data ok).raised = false) ∧
    (∀ (ok : Bool) (ad : AdminData) (uid : String),
      (admin_add_op ok ad uid).msg = (admin_add_op true ad uid).msg ∧
      (admin_add_op ok ad uid).registry = (admin_add_op true ad uid).registry ∧
      (admin_add_op ok ad uid).reportsSuccess =
        (admin_add_op true ad uid).reportsSuccess) := by
  refine ⟨fun ok => rfl, fun ok ad uid => ?_⟩
  by_cases h : (admin_add ad uid).2 = AdminMsg.added <;>
    simp [admin_add_op, h]

/-- Claim C8, counterexample: in the state produced by loading a missing or
corrupt admin file, the main admin id IS a member of the mutable
delegated-admin list (src/main.py:120 seeds the default with it). -/
theorem main_admin_in_default_registry :
    main_admin_str ∈ (load_admin_data none).admins := by
  decide

/-- Claim C8, amended: `admin-add` never inserts the main admin id into the
mutable set and `admin-remove` never removes it (so from any registry not
containing it, it never appears, and from any registry containing it — such
as the default produced when the persisted file is missing or corrupt, which
is exactly `[main_admin_str]` — it is never removed). -/
theorem main_admin_never_added_or_removed :
    (load_admin_data none).admins = [main_admin_str] ∧
    (∀ (ops : List AdminOp) (ad : AdminData), main_admin_str ∉ ad.admins →
      main_admin_str ∉ (ops.foldl apply_admin ad).admins) ∧
    (∀ (ops : List AdminOp) (ad : AdminData), main_admin_str ∈ ad.admins →
      main_admin_str ∈ (ops.foldl apply_admin ad).admins) :=
  ⟨rfl,
   fun ops ad h => fun hmem => h ((main_mem_foldl_admin ops ad).mp hmem),
   fun ops ad h => (main_mem_foldl_admin ops ad).mpr h⟩

/-- Witness for the amended C8 theorem at a concrete input: one add and one
remove of an ordinary user starting from the empty registry never make the
main admin a member. -/
theorem main_admin_never_added_or_removed_witness :
    main_admin_str ∉
      (([AdminOp.add "42", AdminOp.remove "42"]).foldl apply_admin
        { admins := [] }).admins :=
  main_admin_never_added_or_removed.2.1 [AdminOp.add "42", AdminOp.remove "42"]
    { admins := [] } (by decide)

/-! ## Port allocator (src/main.py lines 203-212, 2173-2264) -/

/-- The used-host-port multiset: every `host_port` of every user's active
forwards (the double loop at src/main.py:204-207). -/
def used_ports_of (active : List (String × List PortInfo)) : List Nat :=
  active.flatMap (fun kv => kv.2.map PortInfo.host_port)

/-- The scan `for p in range(10000, 20000)` (src/main.py:209-212), as a
structural recursion on the remaining count. -/
def find_free_from (used : List Nat) : Nat → Nat → Option Nat
  | _, 0 => none
  | p, Nat.succ n => if p ∈ used then find_free_from used (p + 1) n else some p

/-- `get_next_available_port` (src/main.py:203-212). -/
def get_next_available_port (pd : PortData) : Option Nat :=
  find_free_from (used_ports_of pd.active_ports) 10000 10000

/-- `port_data["active_ports"].setdefault(uid, []).append(e)`
(src/main.py:2218-2225) on the association list. -/
def append_forward : List (String × List PortInfo) → String → PortInfo →
    List (String × List PortInfo)
  | [], uid, e => [(uid, [e])]
  | (k, l) :: rest, uid, e =>
      if k = uid then (k, l ++ [e]) :: rest
      else (k, l) :: append_forward rest uid e

/-- `port_data["active_ports"][uid].remove(found)` (src/main.py:2248). -/
def remove_forward : List (String × List PortInfo) → String → PortInfo →
    List (String × List PortInfo)
  | [], _, _ => []
  | (k, l) :: rest, uid, e =>
      if k = uid then (k, l.erase e) :: rest
      else (k, l) :: remove_forward rest uid e

/-- The user's slot quota, `port_data["users"].get(uid, {}).get("slots", 0)`
(src/main.py:2203). -/
def user_slots (pd : PortData) (uid : String) : Int :=
  dict_get pd.users uid 0

/-- The user's active forwards, `port_data["active_ports"].get(uid, [])`
(src/main.py:2204). -/
def user_active (pd : PortData) (uid : String) : List PortInfo :=
  dict_get pd.active_ports uid []

/-- The container the forward targets: `vps_data[uid][arg1-1]["container_name"]`
(src/main.py:2196-2201). -/
def ports_add_container (vdata : VpsData) (uid : String) (a1 : Nat) : String :=
  ((dict_get vdata uid []).getD (a1 - 1) default).container_name

/-- The TCP proxy-device command line (src/main.py:2215). -/
def tcp_add_cmd (c : String) (hp internal : Nat) : String :=
  "RTC config device add " ++ c ++ " port-" ++ toString hp ++
    "-tcp proxy listen=tcp:0.0.0.0:" ++ toString hp ++
    " connect=tcp:127.0.0.1:" ++ toString internal

/-- The UDP proxy-device command line (src/main.py:2216). -/
def udp_add_cmd (c : String) (hp internal : Nat) : String :=
  "RTC config device add " ++ c ++ " port-" ++ toString hp ++
    "-udp proxy listen=udp:0.0.0.0:" ++ toString hp ++
    " connect=udp:127.0.0.1:" ++ toString internal

/-- The TCP device-removal command line (src/main.py:2246). -/
def tcp_del_cmd (c : String) (hp : Nat) : String :=
  "RTC config device remove " ++ c ++ " port-" ++ toString hp ++ "-tcp"

/-- The UDP device-removal command line (src/main.py:2247). -/
def udp_del_cmd (c : String) (hp : Nat) : String :=
  "RTC config device remove " ++ c ++ " port-" ++ toString hp ++ "-udp"

inductive PortsOutcome
  | invalidVps
  | noSlots
  | noHostPorts
  | execFailed
  | notFound
  | success
deriving Repr, DecidableEq

/-- Result of one `!ports add` / `!ports remove` run: the resulting table,
the command lines issued (in order), the proxy devices that were actually
added at the device level and are still present, the user-facing outcome,
and how many `save_data()` calls were made. -/
structure PortsRun where
  port_data : PortData
  issued : List String
  rules_added : List String
  outcome : PortsOutcome
  saves : Nat
deriving Repr, DecidableEq

/-- `!ports add <vps_num> <port>` (src/main.py:2192-2229): validate the VPS
number, check the quota (`len(active) >= slots` fails), pick the next free
host port, issue the TCP then the UDP proxy-device command, and only if both
succeeded record the mapping and save. A UDP failure aborts before the
record is appended but does not remove the already-added TCP device. -/
def ports_add (env : String → Bool) (vdata : VpsData) (pd : PortData)
    (uid : String) (a1 a2 : Nat) : PortsRun :=
  let vl := dict_get vdata uid []
  if a1 < 1 ∨ vl.length < a1 then
    { port_data := pd, issued := [], rules_added := [],
      outcome := .invalidVps, saves := 0 }
  else if user_slots pd uid ≤ ((user_active pd uid).length : Int) then
    { port_data := pd, issued := [], rules_added := [],
      outcome := .noSlots, saves := 0 }
  else
    match get_next_available_port pd with
    | none =>
        { port_data := pd, issued := [], rules_added := [],
          outcome := .noHostPorts, saves := 0 }
    | some hp =>
        let c := ports_add_container vdata uid a1
        let c1 := tcp_add_cmd c hp a2
        let c2 := udp_add_cmd c hp a2
        if env c1 = false then
          { port_data := pd, issued := [c1], rules_added := [],
            outcome := .execFailed, saves := 0 }
        else if env c2 = false then
          { port_data := pd, issued := [c1, c2], rules_added := [c1],
            outcome := .execFailed, saves := 0 }
        else
          { port_data :=
              { users := pd.users,
                active_ports := append_forward pd.active_ports uid
                  { container := c, internal_port := a2, host_port := hp } },
            issued := [c1, c2], rules_added := [c1, c2],
            outcome := .success, saves := 1 }

/-- `!ports remove <id>` (src/main.py:2231-2252): find the forward with the
given host port in the caller's list; issue the TCP then the UDP
device-removal command, and only if both succeeded remove the record and
save — a removal failure raises before `active.remove(found)` runs, so the
record stays. -/
def ports_remove (env : String → Bool) (pd : PortData) (uid : String)
    (a1 : Nat) : PortsRun :=
  let active := user_active pd uid
  match active.find? (fun p => p.host_port == a1) with
  | none =>
      { port_data := pd, issued := [], rules_added := [],
        outcome := .notFound, saves := 0 }
  | some found =>
      let c1 := tcp_del_cmd found.container a1
      let c2 := udp_del_cmd found.container a1
      if env c1 = false then
        { port_data := pd, issued := [c1], rules_added := [],
          outcome := .execFailed, saves := 0 }
      else if env c2 = false then
        { port_data := pd, issued := [c1, c2], rules_added := [],
          outcome := .execFailed, saves := 0 }
      else
        { port_data :=
            { users := pd.users,
              active_ports := remove_forward pd.active_ports uid found },
          issued := [c1, c2], rules_added := [],
          outcome := .success, saves := 1 }

/-- Quota update in the users map (src/main.py:2259-2262). -/
def set_slots : List (String × Int) → String → Int → List (String × Int)
  | [], uid, n => [(uid, n)]
  | (k, s) :: rest, uid, n =>
      if k = uid then (k, n) :: rest else (k, s) :: set_slots rest uid n

/-- `!ports-add-user <amount> <user>` (src/main.py:2254-2264): add `amount`
to the user's slot quota (creating the entry at 0 first). -/
def ports_add_user (pd : PortData) (uid : String) (amount : Int) : PortData :=
  { users := set_slots pd.users uid (dict_get pd.users uid 0 + amount),
    active_ports := pd.active_ports }

/-- The table loaded when no port file exists (src/main.py:128). -/
def initial_port_data : PortData := { users := [], active_ports := [] }

/-- One mutation of the port table by the allocator's operations. -/
inductive PortStep : PortData → PortData → Prop
  | alloc (env : String → Bool) (vdata : VpsData) (uid : String) (a1 a2 : Nat)
      (pd : PortData) : PortStep pd (ports_add env vdata pd uid a1 a2).port_data
  | release (env : String → Bool) (uid : String) (p : Nat) (pd : PortData) :
      PortStep pd (ports_remove env pd uid p).port_data
  | grant (uid : String) (n : Int) (pd : PortData) :
      PortStep pd (ports_add_user pd uid n)

/-- Port tables reachable from the initial (empty) table. -/
inductive PortReachable : PortData → Prop
  | start : PortReachable initial_port_data
  | step {pd pd' : PortData} : PortReachable pd → PortStep pd pd' →
      PortReachable pd'

/-- The table invariant: every mapped host port lies in 10000–19999, and no
host port is mapped twice across all users. -/
def PortsInv (pd : PortData) : Prop :=
  (∀ x ∈ used_ports_of pd.active_ports, 10000 ≤ x ∧ x < 20000) ∧
    (used_ports_of pd.active_ports).Nodup

theorem used_ports_append_forward (d : List (String × List PortInfo))
    (uid : String) (e : PortInfo) :
    List.Perm (used_ports_of (append_forward d uid e))
      (e.host_port :: used_ports_of d) := by
  induction d with
  | nil => simp [append_forward, used_ports_of]
  | cons kv rest ih =>
      obtain ⟨k, l⟩ := kv
      by_cases h : k = uid
      · simp only [append_forward, if_pos h, used_ports_of, List.flatMap_cons,
          List.map_append, List.map_cons, List.map_nil, List.append_assoc]
        simp
      · simp only [append_forward, if_neg h, used_ports_of, List.flatMap_cons]
        exact ((ih).append_left (l.map PortInfo.host_port)).trans
          List.perm_middle

theorem used_ports_remove_forward (d : List (String × List PortInfo))
    (uid : String) (e : PortInfo) :
    List.Sublist (used_ports_of (remove_forward d uid e))
      (used_ports_of d) := by
  induction d with
  | nil => simp [remove_forward]
  | cons kv rest ih =>
      obtain ⟨k, l⟩ := kv
      by_cases h : k = uid
      · simp only [remove_forward, if_pos h, used_ports_of, List.flatMap_cons]
        exact ((l.erase_sublist e).map PortInfo.host_port).append
          (List.Sublist.refl _)
      · simp only [remove_forward, if_neg h, used_ports_of, List.flatMap_cons]
        exact (List.Sublist.refl _).append ih

theorem find_free_from_some (used : List Nat) :
    ∀ (n s p : Nat), find_free_from used s n = some p →
      p ∉ used ∧ s ≤ p ∧ p < s + n ∧ ∀ q, s ≤ q → q < p → q ∈ used := by
  intro n
  induction n with
  | zero => intro s p h; simp [find_free_from] at h
  | succ n ih =>
      intro s p h
      by_cases hs : s ∈ used
      · rw [find_free_from, if_pos hs] at h
        obtain ⟨h1, h2, h3, h4⟩ := ih (s + 1) p h
        refine ⟨h1, by omega, by omega, fun q hq1 hq2 => ?_⟩
        rcases Nat.eq_or_lt_of_le hq1 with heq | hlt
        · exact heq ▸ hs
        · exact h4 q hlt hq2
      · rw [find_free_from, if_neg hs] at h
        obtain rfl : s = p := by injection h
        exact ⟨hs, le_refl _, by omega, fun q hq1 hq2 => by omega⟩

theorem find_free_from_none (used : List Nat) :
    ∀ (n s : Nat), find_free_from used s n = none →
      ∀ q, s ≤ q → q < s + n → q ∈ used := by
  intro n
  induction n with
  | zero => intro s _ q _ _; omega
  | succ n ih =>
      intro s h q hq1 hq2
      by_cases hs : s ∈ used
      · rw [find_free_from, if_pos hs] at h
        rcases Nat.eq_or_lt_of_le hq1 with heq | hlt
        · exact heq ▸ hs
        · exact ih (s + 1) h q hlt (by omega)
      · rw [find_free_from, if_neg hs] at h
        exact absurd h (by simp)

theorem ports_add_port_data_cases (env : String → Bool) (vdata : VpsData)
    (pd : PortData) (uid : String) (a1 a2 : Nat) :
    (ports_add env vdata pd uid a1 a2).port_data = pd ∨
    ∃ hp, get_next_available_port pd = some hp ∧
      (ports_add env vdata pd uid a1 a2).port_data =
        { users := pd.users,
          active_ports := append_forward pd.active_ports uid
            { container := ports_add_container vdata uid a1,
              internal_port := a2, host_port := hp } } := by
  unfold ports_add
  dsimp only
  split
  · exact Or.inl rfl
  · split
    · exact Or.inl rfl
    · split
      · exact Or.inl rfl
      · next hp hg =>
          split
          · exact Or.inl rfl
          · split
            · exact Or.inl rfl
            · exact Or.inr ⟨hp, hg, rfl⟩

theorem ports_remove_port_data_cases (env : String → Bool) (pd : PortData)
    (uid : String) (a1 : Nat) :
    (ports_remove env pd uid a1).port_data = pd ∨
    ∃ found, (ports_remove env pd uid a1).port_data =
        { users := pd.users,
          active_ports := remove_forward pd.active_ports uid found } := by
  unfold ports_remove
  dsimp only
  split
  · exact Or.inl rfl
  · next found _ =>
      split
      · exact Or.inl rfl
      · split
        · exact Or.inl rfl
        · exact Or.inr ⟨found, rfl⟩

/-- Claim C4: in every port table reachable by any sequence of allocate /
release (and quota-grant) calls, the mapped host ports form a
duplicate-free subset of 10000–19999; and the next-port scan returns the
lowest free port of the range, or `none` exactly when the whole range is in
use. -/
theorem port_table_invariant :
    (∀ pd, PortReachable pd → PortsInv pd) ∧
    (∀ pd hp, get_next_available_port pd = some hp →
      10000 ≤ hp ∧ hp < 20000 ∧ hp ∉ used_ports_of pd.active_ports ∧
      ∀ q, 10000 ≤ q → q < hp → q ∈ used_ports_of pd.active_ports) ∧
    (∀ pd, get_next_available_port pd = none →
      ∀ q, 10000 ≤ q → q < 20000 → q ∈ used_ports_of pd.active_ports) := by
  have hsome : ∀ pd hp, get_next_available_port pd = some hp →
      10000 ≤ hp ∧ hp < 20000 ∧ hp ∉ used_ports_of pd.active_ports ∧
      ∀ q, 10000 ≤ q → q < hp → q ∈ used_ports_of pd.active_ports := by
    intro pd hp h
    obtain ⟨h1, h2, h3, h4⟩ := find_free_from_some _ 10000 10000 hp h
    exact ⟨h2, by omega, h1, h4⟩
  have hnone : ∀ pd, get_next_available_port pd = none →
      ∀ q, 10000 ≤ q → q < 20000 → q ∈ used_ports_of pd.active_ports := by
    intro pd h q hq1 hq2
    exact find_free_from_none _ 10000 10000 h q hq1 (by omega)
  refine ⟨?_, hsome, hnone⟩
  intro pd hreach
  induction hreach with
  | start =>
      exact ⟨by simp [initial_port_data, used_ports_of], by
        simp [initial_port_data, used_ports_of]⟩
  | step _ hs ih =>
      rename_i pd0 pd1 _
      cases hs with
      | alloc env vdata uid a1 a2 =>
          rcases ports_add_port_data_cases env vdata pd0 uid a1 a2 with
            heq | ⟨hp, hg, heq⟩
          · rw [heq]; exact ih
          · obtain ⟨hb1, hb2, hfresh, _⟩ := hsome pd0 hp hg
            rw [heq]
            have hperm := used_ports_append_forward pd0.active_ports uid
              { container := ports_add_container vdata uid a1,
                internal_port := a2, host_port := hp }
            constructor
            · intro x hx
              rcases List.mem_cons.mp ((hperm.mem_iff).mp hx) with hx1 | hx2
              · subst hx1; exact ⟨hb1, hb2⟩
              · exact ih.1 x hx2
            · exact hperm.nodup_iff.mpr (List.nodup_cons.mpr ⟨hfresh, ih.2⟩)
      | release env uid p =>
          rcases ports_remove_port_data_cases env pd0 uid p with
            heq | ⟨found, heq⟩
          · rw [heq]; exact ih
          · rw [heq]
            have hsub := used_ports_remove_forward pd0.active_ports uid found
            exact ⟨fun x hx => ih.1 x (hsub.subset hx), ih.2.sublist hsub⟩
      | grant uid n =>
          exact ⟨fun x hx => ih.1 x hx, ih.2⟩

/-- A concrete table used by the C4 witness: one forward on host port 10000. -/
def pd_one_forward : PortData :=
  { users := [("u", 1)],
    active_ports := [("u", [{ container := "c", internal_port := 80,
                              host_port := 10000 }])] }

/-- Witness for C4 at concrete inputs: the initial table satisfies the
invariant, and on a table whose only forward holds port 10000 the scan
returns 10001, which is in range and unused. -/
theorem port_table_invariant_witness :
    PortsInv initial_port_data ∧
    10000 ≤ 10001 ∧ 10001 < 20000 ∧
    10001 ∉ used_ports_of pd_one_forward.active_ports :=
  ⟨port_table_invariant.1 initial_port_data PortReachable.start,
   (port_table_invariant.2.1 pd_one_forward 10001 (by decide)).1,
   (port_table_invariant.2.1 pd_one_forward 10001 (by decide)).2.1,
   (port_table_invariant.2.1 pd_one_forward 10001 (by decide)).2.2.1⟩

/-- Claim C2, amended: a call with a valid VPS number whose active-forward
count has reached the slot quota fails with the quota error and issues no
device-level command; if either rule command fails, the allocation is not
recorded and nothing is saved; but when the TCP rule succeeded and the UDP
rule then failed, the TCP proxy device is left added at the device level
with no record (it is not rolled back); when both rules succeed the mapping
is recorded and saved. -/
theorem ports_allocate_spec :
    (∀ (env : String → Bool) (vdata : VpsData) (pd : PortData) (uid : String)
        (a1 a2 : Nat), 1 ≤ a1 → a1 ≤ (dict_get vdata uid []).length →
      user_slots pd uid ≤ ((user_active pd uid).length : Int) →
      ports_add env vdata pd uid a1 a2 =
        { port_data := pd, issued := [], rules_added := [],
          outcome := .noSlots, saves := 0 }) ∧
    (∀ (env : String → Bool) (vdata : VpsData) (pd : PortData) (uid : String)
        (a1 a2 : Nat), (ports_add env vdata pd uid a1 a2).outcome = .execFailed →
      (ports_add env vdata pd uid a1 a2).port_data = pd ∧
      (ports_add env vdata pd uid a1 a2).saves = 0) ∧
    (∀ (env : String → Bool) (vdata : VpsData) (pd : PortData) (uid : String)
        (a1 a2 hp : Nat), 1 ≤ a1 → a1 ≤ (dict_get vdata uid []).length →
      ((user_active pd uid).length : Int) < user_slots pd uid →
      get_next_available_port pd = some hp →
      env (tcp_add_cmd (ports_add_container vdata uid a1) hp a2) = true →
      env (udp_add_cmd (ports_add_container vdata uid a1) hp a2) = false →
      ports_add env vdata pd uid a1 a2 =
        { port_data := pd,
          issued := [tcp_add_cmd (ports_add_container vdata uid a1) hp a2,
                     udp_add_cmd (ports_add_container vdata uid a1) hp a2],
          rules_added := [tcp_add_cmd (ports_add_container vdata uid a1) hp a2],
          outcome := .execFailed, saves := 0 }) ∧
    (∀ (env : String → Bool) (vdata : VpsData) (pd : PortData) (uid : String)
        (a1 a2 hp : Nat), 1 ≤ a1 → a1 ≤ (dict_get vdata uid []).length →
      ((user_active pd uid).length : Int) < user_slots pd uid →
      get_next_available_port pd = some hp →
      env (tcp_add_cmd (ports_add_container vdata uid a1) hp a2) = true →
      env (udp_add_cmd (ports_add_container vdata uid a1) hp a2) = true →
      ports_add env vdata pd uid a1 a2 =
        { port_data :=
            { users := pd.users,
              active_ports := append_forward pd.active_ports uid
                { container := ports_add_container vdata uid a1,
                  internal_port := a2, host_port := hp } },
          issued := [tcp_add_cmd (ports_add_container vdata uid a1) hp a2,
                     udp_add_cmd (ports_add_container vdata uid a1) hp a2],
          rules_added := [tcp_add_cmd (ports_add_container vdata uid a1) hp a2,
                          udp_add_cmd (ports_add_container vdata uid a1) hp a2],
          outcome := .success, saves := 1 }) := by
  refine ⟨?_, ?_, ?_, ?_⟩
  · intro env vdata pd uid a1 a2 h1 h2 h3
    unfold ports_add
    dsimp only
    rw [if_neg (by omega), if_pos h3]
  · intro env vdata pd uid a1 a2
    unfold ports_add
    dsimp only
    split
    · intro h; simp at h
    · split
      · intro h; simp at h
      · split
        · intro h; simp at h
        · split
          · intro _; exact ⟨rfl, rfl⟩
          · split
            · intro _; exact ⟨rfl, rfl⟩
            · intro h; simp at h
  · intro env vdata pd uid a1 a2 hp h1 h2 h3 hg htcp hudp
    unfold ports_add
    dsimp only
    rw [if_neg (by omega), if_neg (not_le.mpr h3), hg]
    dsimp only
    rw [if_neg (by simp [htcp]), if_pos hudp]
  · intro env vdata pd uid a1 a2 hp h1 h2 h3 hg htcp hudp
    unfold ports_add
    dsimp only
    rw [if_neg (by omega), if_neg (not_le.mpr h3), hg]
    dsimp only
    rw [if_neg (by simp [htcp]), if_neg (by simp [hudp])]

/-- A one-VPS record used by the port-allocation examples. -/
def vps_c : VpsInfo :=
  { container_name := "c", ram := "1GB", cpu := "1", storage := "1GB",
    config := "1GB RAM / 1 CPU / 1GB Disk", status := "running",
    suspended := false, suspension_history := [], created_at := "t",
    shared_with := [] }

/-- A vps_data table with one VPS named `c` owned by user `u`. -/
def vd_one : VpsData := [("u", [vps_c])]

/-- A port table where user `u` has quota 0 and no forwards. -/
def pd_zero_slots : PortData := { users := [("u", 0)], active_ports := [] }

/-- Witness for the amended C2 theorem at a concrete input: with quota 0 and
no active forwards the allocation fails with the quota error and issues no
command. -/
theorem ports_allocate_spec_witness :
    ports_add (fun _ => true) vd_one pd_zero_slots "u" 1 80 =
      { port_data := pd_zero_slots, issued := [], rules_added := [],
        outcome := .noSlots, saves := 0 } :=
  ports_allocate_spec.1 (fun _ => true) vd_one pd_zero_slots "u" 1 80
    (by decide) (by decide) (by decide)

/-- A port table where user `u` has quota 1 and no forwards. -/
def pd_c2 : PortData := { users := [("u", 1)], active_ports := [] }

/-- An executor on which every command succeeds except the UDP proxy-device
rule for container `c`, host port 10000, internal port 80. -/
def env_udp_fails : String → Bool := fun cmd => !(cmd == udp_add_cmd "c" 10000 80)

/-- The run that claim C2's counterexample inspects. -/
def c2_run : PortsRun := ports_add env_udp_fails vd_one pd_c2 "u" 1 80

/-- Claim C2, counterexample: when the TCP rule succeeds and the UDP rule
fails, the allocation is (correctly) not recorded, but the TCP proxy device
has been added at the device level and is left in place — a partial forward
that is mapped and un-recorded, contradicting the claim. -/
theorem ports_add_leaves_unrecorded_device_rule :
    c2_run.outcome = .execFailed ∧
    c2_run.port_data = pd_c2 ∧
    c2_run.rules_added = [tcp_add_cmd "c" 10000 80] ∧
    c2_run.rules_added ≠ [] := by
  decide

/-- Claim C3, amended: when the host port is found in the caller's list and
both device-removal commands succeed, the two rules are removed and then the
record is removed and saved; but when removing a device rule fails, the
in-memory record is NOT removed — the failure is reported and nothing is
saved, so the forward (and the slot it occupies) remains; an unknown host
port changes nothing and issues no command. -/
theorem ports_release_spec :
    (∀ (env : String → Bool) (pd : PortData) (uid : String) (p : Nat)
        (found : PortInfo),
      (user_active pd uid).find? (fun q => q.host_port == p) = some found →
      env (tcp_del_cmd found.container p) = true →
      env (udp_del_cmd found.container p) = true →
      ports_remove env pd uid p =
        { port_data :=
            { users := pd.users,
              active_ports := remove_forward pd.active_ports uid found },
          issued := [tcp_del_cmd found.container p, udp_del_cmd found.container p],
          rules_added := [], outcome := .success, saves := 1 }) ∧
    (∀ (env : String → Bool) (pd : PortData) (uid : String) (p : Nat),
      (ports_remove env pd uid p).outcome = .execFailed →
      (ports_remove env pd uid p).port_data = pd ∧
      (ports_remove env pd uid p).saves = 0) ∧
    (∀ (env : String → Bool) (pd : PortData) (uid : String) (p : Nat),
      (user_active pd uid).find? (fun q => q.host_port == p) = none →
      ports_remove env pd uid p =
        { port_data := pd, issued := [], rules_added := [],
          outcome := .notFound, saves := 0 }) := by
  refine ⟨?_, ?_, ?_⟩
  · intro env pd uid p found hfind htcp hudp
    unfold ports_remove
    dsimp only
    rw [hfind]
    dsimp only
    rw [if_neg (by simp [htcp]), if_neg (by simp [hudp])]
  · intro env pd uid p
    unfold ports_remove
    dsimp only
    split
    · intro h; simp at h
    · split
      · intro _; exact ⟨rfl, rfl⟩
      · split
        · intro _; exact ⟨rfl, rfl⟩
        · intro h; simp at h
  · intro env pd uid p hfind
    unfold ports_remove
    dsimp only
    rw [hfind]

/-- A port table where user `u` holds one forward: host 10005 → `c`:80. -/
def pd_c3 : PortData :=
  { users := [("u", 1)],
    active_ports := [("u", [{ container := "c", internal_port := 80,
                              host_port := 10005 }])] }

/-- An executor on which every command succeeds except removal of the TCP
proxy device for container `c`, host port 10005. -/
def env_tcpdel_fails : String → Bool := fun cmd => !(cmd == tcp_del_cmd "c" 10005)

/-- The run that claim C3's counterexample inspects. -/
def c3_run : PortsRun := ports_remove env_tcpdel_fails pd_c3 "u" 10005

/-- Claim C3, counterexample: when removing the device rules fails, the
in-memory record is NOT removed (the exception skips `active.remove(found)`),
so the forward is still in the user's list — contradicting the claim that
the record is still removed and the user can always free the slot. -/
theorem ports_remove_keeps_record_on_rule_failure :
    c3_run.outcome = .execFailed ∧
    c3_run.port_data = pd_c3 ∧
    ({ container := "c", internal_port := 80, host_port := 10005 } : PortInfo) ∈
      user_active c3_run.port_data "u" := by
  decide

/-- Witness for the amended C3 theorem at a concrete input: with an
all-succeeding executor the forward on host port 10005 is removed and the
change saved. -/
theorem ports_release_spec_witness :
    ports_remove (fun _ => true) pd_c3 "u" 10005 =
      { port_data :=
          { users := pd_c3.users,
            active_ports := remove_forward pd_c3.active_ports "u"
              { container := "c", internal_port := 80, host_port := 10005 } },
        issued := [tcp_del_cmd "c" 10005, udp_del_cmd "c" 10005],
        rules_added := [], outcome := .success, saves := 1 } :=
  ports_release_spec.1 (fun _ => true) pd_c3 "u" 10005
    { container := "c", internal_port := 80, host_port := 10005 }
    (by decide) rfl rfl

/-! ## Instance Guardian (src/main.py lines 428-465) -/

/-- The actor recorded for automatic suspensions (src/main.py:450). The
spec refers to this fixed constant abstractly as the "auto-system" actor. -/
def auto_system_actor : String := "RathamCloud Auto-System"

/-- `RTC stop <container>` (src/main.py:442). -/
def stop_cmd (c : String) : String := "RTC stop " ++ c

/-- Python's `f"{x:.1f}"` on a non-negative rational (the sampled
percentages), rounding half up rather than half to even — the difference is
immaterial to the claims proved here. -/
def fmt1 (q : Rat) : String :=
  let t : Int := (q * 10 + 1 / 2).floor
  toString (t / 10) ++ "." ++ toString (t % 10)

/-- The reason string built at src/main.py:439: it names both sampled
metrics (CPU and RAM, the exceeded one among them) and both thresholds. -/
def suspension_reason (c r : Rat) (cpuT ramT : Int) : String :=
  "High resource usage: CPU " ++ fmt1 c ++ "%, RAM " ++ fmt1 r ++
    "% (threshold: " ++ toString cpuT ++ "% CPU / " ++ toString ramT ++ "% RAM)"

/-- The per-instance body of one `vps_monitor` tick (src/main.py:434-461):
only a `running`, non-`suspended` instance is sampled; on breach the stop
command is issued and, only if it succeeds, the instance is suspended, one
history entry is appended, and `save_data()` is called (the boolean result).
A stop failure is caught and logged, leaving the record untouched. -/
def monitor_process (env : String → Bool) (sample : String → Rat × Rat)
    (cpuT ramT : Int) (now : String) (vps : VpsInfo) : VpsInfo × Bool :=
  if vps.status = "running" ∧ vps.suspended = false then
    let c := (sample vps.container_name).1
    let r := (sample vps.container_name).2
    if c > (cpuT : Rat) ∨ r > (ramT : Rat) then
      if env (stop_cmd vps.container_name) then
        ({ vps with
            status := "suspended"
            suspended := true
            suspension_history := vps.suspension_history ++
              [{ time := now
                 reason := suspension_reason c r cpuT ramT
                 by_ := auto_system_actor }] }, true)
      else (vps, false)
    else (vps, false)
  else (vps, false)

/-- One full `vps_monitor` tick (the double loop at src/main.py:432-433):
every instance of every user is processed once; the second component counts
the `save_data()` calls made. -/
def monitor_tick (env : String → Bool) (sample : String → Rat × Rat)
    (cpuT ramT : Int) (now : String) (vdata : VpsData) : VpsData × Nat :=
  (vdata.map (fun kv => (kv.1, kv.2.map
      (fun v => (monitor_process env sample cpuT ramT now v).1))),
   (vdata.map (fun kv => kv.2.countP
      (fun v => (monitor_process env sample cpuT ramT now v).2))).sum)

/-- Claim C5: on a guardian tick every instance is processed exactly once;
an instance that is not (`running` and non-`suspended`) is left untouched —
so a stopped instance never becomes suspended and an already-suspended
instance gets no further audit entry in the tick; a sampled instance whose
CPU% or RAM% exceeds its threshold and whose stop command succeeds ends
with `status = "suspended"`, `suspended = true`, exactly one appended
history entry carrying the tick time, the reason string naming the metrics,
and the auto-system actor, and one `save_data()` call; a sampled instance
below both thresholds is untouched. -/
theorem instance_guardian_spec :
    (∀ (env : String → Bool) (sample : String → Rat × Rat) (cpuT ramT : Int)
        (now : String) (vps : VpsInfo),
      ¬(vps.status = "running" ∧ vps.suspended = false) →
      monitor_process env sample cpuT ramT now vps = (vps, false)) ∧
    (∀ (env : String → Bool) (sample : String → Rat × Rat) (cpuT ramT : Int)
        (now : String) (vps : VpsInfo),
      vps.status = "running" → vps.suspended = false →
      ((sample vps.container_name).1 > (cpuT : Rat) ∨
        (sample vps.container_name).2 > (ramT : Rat)) →
      env (stop_cmd vps.container_name) = true →
      (monitor_process env sample cpuT ramT now vps).1.status = "suspended" ∧
      (monitor_process env sample cpuT ramT now vps).1.suspended = true ∧
      (monitor_process env sample cpuT ramT now vps).1.suspension_history =
        vps.suspension_history ++
          [{ time := now,
             reason := suspension_reason (sample vps.container_name).1
               (sample vps.container_name).2 cpuT ramT,
             by_ := auto_system_actor }] ∧
      (monitor_process env sample cpuT ramT now vps).2 = true) ∧
    (∀ (env : String → Bool) (sample : String → Rat × Rat) (cpuT ramT : Int)
        (now : String) (vps : VpsInfo),
      ¬((sample vps.container_name).1 > (cpuT : Rat) ∨
        (sample vps.container_name).2 > (ramT : Rat)) →
      monitor_process env sample cpuT ramT now vps = (vps, false)) ∧
    (∀ (env : String → Bool) (sample : String → Rat × Rat) (cpuT ramT : Int)
        (now : String) (vdata : VpsData),
      (monitor_tick env sample cpuT ramT now vdata).1 =
        vdata.map (fun kv => (kv.1, kv.2.map
          (fun v => (monitor_process env sample cpuT ramT now v).1)))) := by
  refine ⟨?_, ?_, ?_, fun env sample cpuT ramT now vdata => rfl⟩
  · intro env sample cpuT ramT now vps h
    unfold monitor_process
    rw [if_neg h]
  · intro env sample cpuT ramT now vps h1 h2 hb henv
    unfold monitor_process
    rw [if_pos ⟨h1, h2⟩]
    dsimp only
    rw [if_pos hb, if_pos henv]
    exact ⟨rfl, rfl, rfl, rfl⟩
  · intro env sample cpuT ramT now vps hb
    unfold monitor_process
    by_cases hs : vps.status = "running" ∧ vps.suspended = false
    · rw [if_pos hs]
      dsimp only
      rw [if_neg hb]
    · rw [if_neg hs]

/-- A sampler reporting CPU 92%, RAM 40% for every container. -/
def sample_hot : String → Rat × Rat := fun _ => (92, 40)

/-- Witness for C5 at a concrete input: the running, non-suspended VPS `c`
sampled at CPU 92% against threshold 90 is suspended with one audit entry
by the auto-system actor, and the change is saved. -/
theorem instance_guardian_spec_witness :
    (monitor_process (fun _ => true) sample_hot 90 90 "t2" vps_c).1.status =
      "suspended" ∧
    (monitor_process (fun _ => true) sample_hot 90 90 "t2" vps_c).1.suspended =
      true ∧
    (monitor_process (fun _ => true) sample_hot 90 90 "t2" vps_c).2 = true :=
  ⟨(instance_guardian_spec.2.1 (fun _ => true) sample_hot 90 90 "t2" vps_c
      rfl rfl (by decide) rfl).1,
   (instance_guardian_spec.2.1 (fun _ => true) sample_hot 90 90 "t2" vps_c
      rfl rfl (by decide) rfl).2.1,
   (instance_guardian_spec.2.1 (fun _ => true) sample_hot 90 90 "t2" vps_c
      rfl rfl (by decide) rfl).2.2.2⟩

/-! ## VPS creation and deletion (src/main.py lines 711-785, 1253-1295) -/

/-- The derived container id, `f"RathamCloud-vps-{user_id}-{vps_count}"`
with `vps_count = len(vps_data[user_id]) + 1` (src/main.py:724-725). -/
def new_container_name (uid : String) (l : List VpsInfo) : String :=
  "RathamCloud-vps-" ++ uid ++ "-" ++ toString (l.length + 1)

/-- `if user_id not in vps_data: vps_data[user_id] = []`
(src/main.py:721-722). -/
def ensure_user : VpsData → String → VpsData
  | [], uid => [(uid, [])]
  | (k, l) :: rest, uid =>
      if k = uid then (k, l) :: rest else (k, l) :: ensure_user rest uid

/-- `vps_data[user_id].append(vps_info)` (src/main.py:754). -/
def append_vps : VpsData → String → VpsInfo → VpsData
  | [], uid, v => [(uid, [v])]
  | (k, l) :: rest, uid, v =>
      if k = uid then (k, l ++ [v]) :: rest else (k, l) :: append_vps rest uid v

/-- The id `create` will derive, given the pre-command table. -/
def created_container_name (vdata : VpsData) (uid : String) : String :=
  new_container_name uid (dict_get (ensure_user vdata uid) uid [])

/-- `RTC init ...` (src/main.py:732). -/
def create_init_cmd (name : String) : String :=
  "RTC init ubuntu:22.04 " ++ name ++ " --storage " ++ DEFAULT_STORAGE_POOL

/-- `RTC config set ... limits.memory ...` (src/main.py:733). -/
def create_mem_cmd (name : String) (ram : Int) : String :=
  "RTC config set " ++ name ++ " limits.memory " ++ toString (ram * 1024) ++ "MB"

/-- `RTC config set ... limits.cpu ...` (src/main.py:734). -/
def create_cpu_cmd (name : String) (cpu : Int) : String :=
  "RTC config set " ++ name ++ " limits.cpu " ++ toString cpu

/-- `RTC config device set ... root size ...` (src/main.py:737). -/
def create_disk_cmd (name : String) (disk : Int) : String :=
  "RTC config device set " ++ name ++ " root size " ++ toString disk ++ "GB"

/-- `RTC start ...` (src/main.py:739). -/
def start_cmd (name : String) : String := "RTC start " ++ name

/-- `f"{ram}GB RAM / {cpu} CPU / {disk}GB Disk"` (src/main.py:741). -/
def config_string (ram cpu disk : Int) : String :=
  toString ram ++ "GB RAM / " ++ toString cpu ++ " CPU / " ++
    toString disk ++ "GB Disk"

/-- The record appended on a successful create (src/main.py:742-753). -/
def new_vps_info (name : String) (ram cpu disk : Int) (now : String) : VpsInfo :=
  { container_name := name
    ram := toString ram ++ "GB"
    cpu := toString cpu
    storage := toString disk ++ "GB"
    config := config_string ram cpu disk
    status := "running"
    suspended := false
    suspension_history := []
    created_at := now
    shared_with := [] }

inductive CreateOutcome
  | invalidSpecs
  | execFailed
  | success
deriving Repr, DecidableEq

/-- Result of one `!create` run. -/
structure CreateRun where
  vps_data : VpsData
  issued : List String
  outcome : CreateOutcome
  saves : Nat
deriving Repr, DecidableEq

/-- `create_vps` (src/main.py:711-785): reject non-positive specs before
any command; otherwise ensure the owner's (possibly empty) list exists,
derive the id, then run init / memory / cpu / disk / start in order — any
failure aborts (already-run commands keep their effects) and nothing is
recorded; only after the start succeeds is the record appended and saved. -/
def create_vps (env : String → Bool) (vdata : VpsData) (uid : String)
    (ram cpu disk : Int) (now : String) : CreateRun :=
  if ram ≤ 0 ∨ cpu ≤ 0 ∨ disk ≤ 0 then
    { vps_data := vdata, issued := [], outcome := .invalidSpecs, saves := 0 }
  else
    let d0 := ensure_user vdata uid
    let name := created_container_name vdata uid
    let c1 := create_init_cmd name
    let c2 := create_mem_cmd name ram
    let c3 := create_cpu_cmd name cpu
    let c4 := create_disk_cmd name disk
    let c5 := start_cmd name
    if env c1 = false then
      { vps_data := d0, issued := [c1], outcome := .execFailed, saves := 0 }
    else if env c2 = false then
      { vps_data := d0, issued := [c1, c2], outcome := .execFailed, saves := 0 }
    else if env c3 = false then
      { vps_data := d0, issued := [c1, c2, c3], outcome := .execFailed,
        saves := 0 }
    else if env c4 = false then
      { vps_data := d0, issued := [c1, c2, c3, c4], outcome := .execFailed,
        saves := 0 }
    else if env c5 = false then
      { vps_data := d0, issued := [c1, c2, c3, c4, c5],
        outcome := .execFailed, saves := 0 }
    else
      { vps_data := append_vps d0 uid (new_vps_info name ram cpu disk now),
        issued := [c1, c2, c3, c4, c5], outcome := .success, saves := 1 }

theorem dict_get_ensure_user (d : VpsData) (uid u : String) :
    dict_get (ensure_user d uid) u [] = dict_get d u [] := by
  induction d with
  | nil =>
      by_cases h : uid = u <;> simp [ensure_user, dict_get, h]
  | cons kv rest ih =>
      obtain ⟨k, l⟩ := kv
      by_cases h : k = uid
      · subst h
        simp [ensure_user]
      · by_cases h2 : k = u
        · subst h2
          simp [ensure_user, dict_get, h]
        · simp [ensure_user, dict_get, h, h2, ih]

/-- Claim C6: create rejects non-positive specs before issuing any command;
with positive specs and all five commands (init, memory, cpu, disk, start)
succeeding, it records — only then — a new instance whose record has
`status = "running"`, `suspended = false`, an empty suspension history and
the config string `"{ram}GB RAM / {cpu} CPU / {disk}GB Disk"`, and saves;
and whenever the run is not a success (any command, including start,
failed) no owner's instance list has changed. -/
theorem create_vps_spec :
    (∀ (env : String → Bool) (vdata : VpsData) (uid : String)
        (ram cpu disk : Int) (now : String),
      ram ≤ 0 ∨ cpu ≤ 0 ∨ disk ≤ 0 →
      create_vps env vdata uid ram cpu disk now =
        { vps_data := vdata, issued := [], outcome := .invalidSpecs,
          saves := 0 }) ∧
    (∀ (env : String → Bool) (vdata : VpsData) (uid : String)
        (ram cpu disk : Int) (now : String),
      0 < ram → 0 < cpu → 0 < disk →
      env (create_init_cmd (created_container_name vdata uid)) = true →
      env (create_mem_cmd (created_container_name vdata uid) ram) = true →
      env (create_cpu_cmd (created_container_name vdata uid) cpu) = true →
      env (create_disk_cmd (created_container_name vdata uid) disk) = true →
      env (start_cmd (created_container_name vdata uid)) = true →
      create_vps env vdata uid ram cpu disk now =
        { vps_data := append_vps (ensure_user vdata uid) uid
            (new_vps_info (created_container_name vdata uid) ram cpu disk now),
          issued := [create_init_cmd (created_container_name vdata uid),
                     create_mem_cmd (created_container_name vdata uid) ram,
                     create_cpu_cmd (created_container_name vdata uid) cpu,
                     create_disk_cmd (created_container_name vdata uid) disk,
                     start_cmd (created_container_name vdata uid)],
          outcome := .success, saves := 1 }) ∧
    (∀ (name : String) (ram cpu disk : Int) (now : String),
      (new_vps_info name ram cpu disk now).status = "running" ∧
      (new_vps_info name ram cpu disk now).suspended = false ∧
      (new_vps_info name ram cpu disk now).suspension_history = [] ∧
      (new_vps_info name ram cpu disk now).config =
        toString ram ++ "GB RAM / " ++ toString cpu ++ " CPU / " ++
          toString disk ++ "GB Disk") ∧
    (∀ (env : String → Bool) (vdata : VpsData) (uid : String)
        (ram cpu disk : Int) (now : String),
      (create_vps env vdata uid ram cpu disk now).outcome ≠ .success →
      ∀ u, dict_get (create_vps env vdata uid ram cpu disk now).vps_data u [] =
        dict_get vdata u []) := by
  refine ⟨?_, ?_, fun name ram cpu disk now => ⟨rfl, rfl, rfl, rfl⟩, ?_⟩
  · intro env vdata uid ram cpu disk now h
    unfold create_vps
    rw [if_pos h]
  · intro env vdata uid ram cpu disk now hr hc hd h1 h2 h3 h4 h5
    unfold create_vps
    dsimp only
    rw [if_neg (by omega), if_neg (by simp [h1]), if_neg (by simp [h2]),
      if_neg (by simp [h3]), if_neg (by simp [h4]), if_neg (by simp [h5])]
  · intro env vdata uid ram cpu disk now
    unfold create_vps
    dsimp only
    split
    · intro _ u; rfl
    · split
      · intro _ u; exact dict_get_ensure_user vdata uid u
      · split
        · intro _ u; exact dict_get_ensure_user vdata uid u
        · split
          · intro _ u; exact dict_get_ensure_user vdata uid u
          · split
            · intro _ u; exact dict_get_ensure_user vdata uid u
            · split
              · intro _ u; exact dict_get_ensure_user vdata uid u
              · intro h; exact absurd rfl h

/-- Witness for C6 at a concrete input: creating a 1GB/1CPU/1GB VPS for
user `u` on an all-succeeding executor records one running instance. -/
theorem create_vps_spec_witness :
    create_vps (fun _ => true) [] "u" 1 1 1 "t" =
      { vps_data := append_vps (ensure_user [] "u") "u"
          (new_vps_info (created_container_name [] "u") 1 1 1 "t"),
        issued := [create_init_cmd (created_container_name [] "u"),
                   create_mem_cmd (created_container_name [] "u") 1,
                   create_cpu_cmd (created_container_name [] "u") 1,
                   create_disk_cmd (created_container_name [] "u") 1,
                   start_cmd (created_container_name [] "u")],
        outcome := .success, saves := 1 } :=
  create_vps_spec.2.1 (fun _ => true) [] "u" 1 1 1 "t"
    (by decide) (by decide) (by decide) rfl rfl rfl rfl rfl

/-- `del vps_data[user_id][vps_number - 1]` (src/main.py:1274), the record
removal of `!delete-vps` on the owner's list. -/
def delete_vps_record (l : List VpsInfo) (n : Nat) : List VpsInfo :=
  l.eraseIdx (n - 1)

/-- The owner `u`'s first instance, with the id create derives for an empty
list. -/
def c7_v1 : VpsInfo := new_vps_info (new_container_name "u" []) 1 1 1 "t"

/-- The owner `u`'s second instance, with the id create derives next. -/
def c7_v2 : VpsInfo := new_vps_info (new_container_name "u" [c7_v1]) 1 1 1 "t"

/-- Claim C7, the id collision: after the owner's first instance is deleted,
the id that `create` derives from `len(list) + 1` for the next create equals
the id of the surviving second instance — instance ids are NOT globally
unique across create/delete sequences. -/
theorem create_id_collides_after_delete :
    new_container_name "u" (delete_vps_record [c7_v1, c7_v2] 1) =
      c7_v2.container_name ∧
    c7_v2.container_name ∈
      (delete_vps_record [c7_v1, c7_v2] 1).map VpsInfo.container_name := by
  decide

/-! ## Host Guardian loop and its runtime toggle
(src/main.py lines 275-303 and 1797-1816) -/

/-- The observable state of the `cpu_monitor` task: the global
`cpu_monitor_active` flag, whether the `while cpu_monitor_active:` task is
still running, and how many loop iterations have completed. -/
structure MonState where
  cpu_monitor_active : Bool
  loop_alive : Bool
  iterations : Nat
deriving Repr, DecidableEq

/-- Events acting on the monitor: one wake-up of the loop (`loopCheck` —
the condition re-evaluation at src/main.py:279 followed by the body, whose
failures are caught at lines 301-303 so `bodyOk = false` still completes
the iteration), and the `!cpu-monitor enable` / `disable` commands
(src/main.py:1809-1814), which only set the flag and never create a new
task. -/
inductive MonEvent
  | loopCheck (bodyOk : Bool)
  | enable
  | disable

/-- The transition function: a wake-up of a live loop runs one iteration if
the flag is set, and otherwise exits the `while` — permanently ending the
task; wake-ups of a dead task do nothing; enable/disable only flip the
flag. -/
def mon_step (s : MonState) : MonEvent → MonState
  | .loopCheck _ =>
      if s.loop_alive then
        if s.cpu_monitor_active then { s with iterations := s.iterations + 1 }
        else { s with loop_alive := false }
      else s
  | .enable => { s with cpu_monitor_active := true }
  | .disable => { s with cpu_monitor_active := false }

def mon_run (evs : List MonEvent) (s : MonState) : MonState :=
  evs.foldl mon_step s

/-- The state at bot startup (src/main.py:58 sets the flag; line 486
creates the task). -/
def mon_start : MonState :=
  { cpu_monitor_active := true, loop_alive := true, iterations := 0 }

/-- Claim C9: once the loop observes `cpu_monitor_active = false` it exits
and a later `enable` (which only sets the flag back) never makes iterations
run again — re-enabling at runtime does NOT work, refuting the claim; the
claim's other half is real: a failing loop body (`bodyOk = false`) does not
terminate the loop. -/
theorem cpu_monitor_enable_does_not_revive_loop :
    (mon_run [.disable, .loopCheck true, .enable, .loopCheck true,
        .loopCheck true] mon_start).loop_alive = false ∧
    (mon_run [.disable, .loopCheck true, .enable, .loopCheck true,
        .loopCheck true] mon_start).iterations = 0 ∧
    (mon_run [.loopCheck false, .loopCheck true] mon_start).loop_alive = true ∧
    (mon_run [.loopCheck false, .loopCheck true] mon_start).iterations = 2 := by
  decide
